import Mathlib

/-!
Shallow embedding of `src/DHO.py`, a damped harmonic oscillator simulator.

The engine core (the `simulate` function of the script, together with the
module-level globals `running` and `data_dict`, and the helpers
`stop_simulation` and `save_data`) is modelled as pure functions over an
explicit `EngineState`.  Floating-point numbers are idealised as real
numbers; the NaN produced by `np.mean` on an empty array is modelled by
`Option ℝ` with `none` standing for NaN.  Rendering (tkinter canvas
drawing, `time.sleep`) has no effect on the engine state and is dropped;
the cooperative hand-off point inside each tick (`canvas.update()`), where
a pending press of the Stop button runs `stop_simulation`, is modelled by
a schedule `stopDuring : ℕ → Bool` saying during which ticks a stop
request is observed.
-/

namespace DHO

/-- The five parsed inputs of a run, in the order the script reads them
(lines 36-40): mass `m`, spring constant `k`, initial displacement `x0`,
total simulation time `tmax`, damping coefficient `b`. -/
structure Params where
  m : ℝ
  k : ℝ
  x0 : ℝ
  tmax : ℝ
  b : ℝ

/-- The raw textual inputs after the `float(...)` calls of lines 36-40:
`none` models a `float` parse failure (the `except` branch of line 41),
`some r` the parsed real value. -/
structure RawInputs where
  m : Option ℝ
  k : Option ℝ
  x0 : Option ℝ
  tmax : Option ℝ
  b : Option ℝ

/-- The `try` block of lines 35-43: all five fields must parse, otherwise
the whole block fails. -/
def parseParams (raw : RawInputs) : Option Params :=
  match raw.m, raw.k, raw.x0, raw.tmax, raw.b with
  | some m, some k, some x0, some tmax, some b => some ⟨m, k, x0, tmax, b⟩
  | _, _, _, _, _ => none

/-- `omega0 = np.sqrt(k/m)` (line 46). -/
noncomputable def omega0 (p : Params) : ℝ := Real.sqrt (p.k / p.m)

/-- `y = b/(2*m)` (line 47), the damping factor gamma. -/
noncomputable def y (p : Params) : ℝ := p.b / (2 * p.m)

/-- `omega_d = np.sqrt(omega0**2 - y**2)` (line 53). -/
noncomputable def omega_d (p : Params) : ℝ := Real.sqrt (omega0 p ^ 2 - y p ^ 2)

/-- `T = 2*np.pi/omega_d` (line 54). -/
noncomputable def period (p : Params) : ℝ := 2 * Real.pi / omega_d p

/-- `fps = 60` (line 67). -/
def fps : ℕ := 60

/-- `dt = 1/fps` (line 68). -/
noncomputable def dt : ℝ := 1 / (fps : ℝ)

/-- `frames = int(tmax*fps)` (line 69).  Python `int()` truncates toward
zero; the loop `for i in range(frames)` runs `max frames 0` iterations, so
for the purpose of the loop `frames` is `(⌊tmax*fps⌋).toNat` (for
`tmax ≥ 0` the two notions of `frames` coincide; for `tmax < 0` both give
an empty loop). -/
noncomputable def frames (p : Params) : ℕ := (⌊p.tmax * (fps : ℝ)⌋).toNat

/-- One row of the recorded data: the quantities computed at one tick. -/
structure Sample where
  t : ℝ
  x : ℝ
  v : ℝ
  a : ℝ
  ke : ℝ
  pe : ℝ
  te : ℝ

/-- The per-tick computation of lines 83-88, as a function of the time
`t = i*dt` of line 80:
`x = x0 * np.exp(-y*t) * np.cos(omega_d*t)`,
`v = -x0 * np.exp(-y*t) * (y*np.cos(omega_d*t) + omega_d*np.sin(omega_d*t))`,
`a = -2*y*v - omega0**2 * x`, `ke = 0.5*m*v**2`, `pe = 0.5*k*x**2`,
`te = ke + pe`. -/
noncomputable def sampleAt (p : Params) (t : ℝ) : Sample :=
  let x := p.x0 * Real.exp (-y p * t) * Real.cos (omega_d p * t)
  let v := -p.x0 * Real.exp (-y p * t) *
    (y p * Real.cos (omega_d p * t) + omega_d p * Real.sin (omega_d p * t))
  let a := -2 * y p * v - omega0 p ^ 2 * x
  let ke := 0.5 * p.m * v ^ 2
  let pe := 0.5 * p.k * x ^ 2
  let te := ke + pe
  ⟨t, x, v, a, ke, pe, te⟩

/-- The sample recorded by loop iteration `i`, at `t = i*dt` (line 80). -/
noncomputable def tickSample (p : Params) (i : ℕ) : Sample := sampleAt p ((i : ℝ) * dt)

/-- The run loop of lines 76-97.  `i` is the current loop index, `running`
the value of the global flag at the `if not running: break` check of
line 77, `rem` the number of indices left in `range(frames)`.  Each
executed tick appends its sample and then hands control to the UI
(`canvas.update()`, line 134), where a pending stop request (modelled by
`stopDuring i = true`) runs `stop_simulation` and clears the flag.
Returns the final value of the `running` flag and the list of recorded
samples. -/
def loopAux (f : ℕ → Sample) (stopDuring : ℕ → Bool) :
    ℕ → Bool → ℕ → Bool × List Sample
  | _, running, 0 => (running, [])
  | i, running, rem + 1 =>
    if running then
      let r := loopAux f stopDuring (i + 1) (running && !stopDuring i) rem
      (r.1, f i :: r.2)
    else (running, [])

/-- The number of loop iterations that execute their body, starting at
index `i` with the flag still set, with `rem` indices left: iteration `i`
runs, and the following ones run unless a stop was observed. -/
def ticksRun (stopDuring : ℕ → Bool) : ℕ → ℕ → ℕ
  | _, 0 => 0
  | i, rem + 1 => if stopDuring i then 1 else 1 + ticksRun stopDuring (i + 1) rem

/-- The columnar record built at lines 138-146: the seven lists grown in
lockstep by the appends of lines 91-97. -/
structure TimeSeries where
  times : List ℝ
  positions : List ℝ
  velocities : List ℝ
  accelerations : List ℝ
  kinetic_energy : List ℝ
  potential_energy : List ℝ
  total_energy : List ℝ

/-- Assembling `data_dict` from the recorded samples: each of the seven
lists of lines 72-73 receives exactly one append per executed tick
(lines 91-97), so each column is the corresponding projection of the
sample list. -/
def toTimeSeries (samples : List Sample) : TimeSeries :=
  ⟨samples.map Sample.t, samples.map Sample.x, samples.map Sample.v,
   samples.map Sample.a, samples.map Sample.ke, samples.map Sample.pe,
   samples.map Sample.te⟩

/-- `np.mean` of a list (line 148).  On an empty array `np.mean` emits a
warning and returns NaN; NaN is modelled as `none`. -/
noncomputable def npMean (l : List ℝ) : Option ℝ :=
  if l.length = 0 then none else some (l.sum / (l.length : ℝ))

/-- The text shown in `label_result`: the parse-failure message of
line 42, the overdamped rejection of line 50, or the descriptor summary
of lines 57-59 (carrying `omega0`, `y`, `omega_d`, `T`; the 2-decimal
string formatting is presentation, not engine state). -/
inductive ResultMsg where
  | invalidMsg : ResultMsg
  | overdampedMsg : ResultMsg
  | descriptorMsg : ℝ → ℝ → ℝ → ℝ → ResultMsg

/-- The module-level mutable state the engine touches: the globals
`running` (line 8) and `data_dict` (line 9), plus the two user-facing
labels.  `label_energy = some o` means the label of line 149 was written
with the value `o` (`none` inside = NaN). -/
structure EngineState where
  running : Bool
  data_dict : Option TimeSeries
  label_result : Option ResultMsg
  label_energy : Option (Option ℝ)

/-- `stop_simulation` (lines 151-153): clears the global `running` flag. -/
def stop_simulation (st : EngineState) : EngineState := { st with running := false }

/-- Lines 45-149 of `simulate`, after a successful parse: classify the
damping regime (lines 49-51), otherwise report the descriptor (lines
57-59), run the loop (lines 76-97), publish `data_dict` (lines 138-146)
and write the mean total energy to `label_energy` (lines 148-149). -/
noncomputable def simulateParams (st : EngineState) (p : Params)
    (stopDuring : ℕ → Bool) : EngineState :=
  if y p ≥ omega0 p then
    { st with label_result := some ResultMsg.overdampedMsg }
  else
    { st with
      running := (loopAux (tickSample p) stopDuring 0 true (frames p)).1,
      label_result := some (ResultMsg.descriptorMsg (omega0 p) (y p) (omega_d p) (period p)),
      data_dict :=
        some (toTimeSeries (loopAux (tickSample p) stopDuring 0 true (frames p)).2),
      label_energy :=
        some (npMean (toTimeSeries
          (loopAux (tickSample p) stopDuring 0 true (frames p)).2).total_energy) }

/-- `simulate` (lines 12-149): set the global `running` flag (line 32),
parse the five inputs (lines 35-43, reporting the parse-failure message
on the `except` branch), then continue with `simulateParams`. -/
noncomputable def simulate (st : EngineState) (raw : RawInputs)
    (stopDuring : ℕ → Bool) : EngineState :=
  let st1 : EngineState := { st with running := true }
  match parseParams raw with
  | none => { st1 with label_result := some ResultMsg.invalidMsg }
  | some p => simulateParams st1 p stopDuring

/-- `header = list(data_dict.keys())` (line 196): the keys of `data_dict`
in the insertion order of lines 138-146. -/
def csvHeader : List String :=
  ["Time (s)", "Position (m)", "Velocity (m/s)", "Acceleration (m/s²)",
   "Kinetic Energy (J)", "Potential Energy (J)", "Total Energy (J)"]

/-- Dictionary lookup `data_dict[key]` on the record of lines 138-146. -/
def column (ts : TimeSeries) (key : String) : List ℝ :=
  if key = "Time (s)" then ts.times
  else if key = "Position (m)" then ts.positions
  else if key = "Velocity (m/s)" then ts.velocities
  else if key = "Acceleration (m/s²)" then ts.accelerations
  else if key = "Kinetic Energy (J)" then ts.kinetic_energy
  else if key = "Potential Energy (J)" then ts.potential_energy
  else if key = "Total Energy (J)" then ts.total_energy
  else []

/-- The data rows written by lines 198-200: for each
`i in range(len(data_dict["Time (s)"]))` the row
`[data_dict[key][i] for key in header]`. -/
def saveRows (ts : TimeSeries) : List (List ℝ) :=
  (List.range ts.times.length).map fun i => csvHeader.map fun key => (column ts key).getD i 0

/-- The table written by `save_data` (lines 194-200): the header row of
line 197 followed by the data rows. -/
def save_data (ts : TimeSeries) : List String × List (List ℝ) :=
  (csvHeader, saveRows ts)

/-- A concrete engine state before any run: `running = False` (line 8),
`data_dict = None` (line 9), both labels empty. -/
def st0 : EngineState := ⟨false, none, none, none⟩

/-- No stop request is ever observed. -/
def noStop : ℕ → Bool := fun _ => false

/-- Concrete parsed inputs `m=1, k=1, x0=1, tmax=1/60, b=0`:
underdamped, one frame. -/
noncomputable def raw1 : RawInputs := ⟨some 1, some 1, some 1, some (1 / 60), some 0⟩

/-- The parameter set parsed from `raw1`. -/
noncomputable def p1 : Params := ⟨1, 1, 1, 1 / 60, 0⟩

/-- Raw inputs whose mass field fails to parse (scenario D). -/
def rawBad : RawInputs := ⟨none, some 1, some 1, some 1, some 1⟩

/-- Concrete parsed inputs `m=1, k=1, x0=1, tmax=0, b=0` (scenario C:
zero frames). -/
def raw0 : RawInputs := ⟨some 1, some 1, some 1, some 0, some 0⟩

/-- The parameter set parsed from `raw0`. -/
def p0 : Params := ⟨1, 1, 1, 0, 0⟩

/-- Concrete inputs of scenario B: `m=1, k=1, x0=1, b=10` (and
`tmax=10`), overdamped. -/
def rawB : RawInputs := ⟨some 1, some 1, some 1, some 10, some 10⟩

/-- The parameter set parsed from `rawB`. -/
def pB : Params := ⟨1, 1, 1, 10, 10⟩

/-- Concrete parsed inputs `m=1, k=1, x0=1, tmax=1/30, b=0`:
underdamped, two frames. -/
noncomputable def raw2 : RawInputs := ⟨some 1, some 1, some 1, some (1 / 30), some 0⟩

/-- The parameter set parsed from `raw2`. -/
noncomputable def p2 : Params := ⟨1, 1, 1, 1 / 30, 0⟩

/-- A stop request is observed during tick 0 (the Stop button is pressed
while the first tick's `canvas.update()` runs). -/
def stopAt0 : ℕ → Bool := fun i => i == 0

/-- An engine state holding the published dataset of an earlier run, to
observe what a rejected run does to it. -/
noncomputable def stPrev : EngineState :=
  ⟨false, some (toTimeSeries [tickSample p1 0]), none, none⟩

/-- The spec's closed-form displacement: `x(t) = x0 · exp(-γt) · cos(ωd·t)`. -/
noncomputable def specX (x0 g wd t : ℝ) : ℝ :=
  x0 * Real.exp (-(g * t)) * Real.cos (wd * t)

/-- The spec's closed-form velocity:
`v(t) = -x0 · exp(-γt) · (γ·cos(ωd·t) + ωd·sin(ωd·t))`. -/
noncomputable def specV (x0 g wd t : ℝ) : ℝ :=
  -x0 * Real.exp (-(g * t)) * (g * Real.cos (wd * t) + wd * Real.sin (wd * t))

/-- The spec's closed-form acceleration: `a(t) = -2γ·v(t) - ω0²·x(t)`. -/
noncomputable def specA (g w0 v x : ℝ) : ℝ := -2 * g * v - w0 ^ 2 * x

/-- Once the `running` flag is down, the loop exits at once with no
further samples. -/
theorem loopAux_false (f : ℕ → Sample) (s : ℕ → Bool) (i : ℕ) :
    ∀ n, loopAux f s i false n = (false, []) := by
  intro n
  cases n with
  | zero => rfl
  | succ m => simp [loopAux]

/-- One unfolding of the loop while the flag is up: tick `i` executes,
then the loop continues with the flag cleared when a stop request was
observed during tick `i`. -/
theorem loopAux_succ_true (f : ℕ → Sample) (s : ℕ → Bool) (i n : ℕ) :
    loopAux f s i true (n + 1) =
      ((loopAux f s (i + 1) (!s i) n).1, f i :: (loopAux f s (i + 1) (!s i) n).2) := by
  simp [loopAux]

/-- If no stop request is observed among the `n` remaining ticks, the
loop runs them all and leaves the flag up. -/
theorem loopAux_noStop (f : ℕ → Sample) (s : ℕ → Bool) :
    ∀ n i, (∀ j, j < n → s (i + j) = false) →
      loopAux f s i true n = (true, (List.range' i n).map f) := by
  intro n
  induction n with
  | zero => intro i _; rfl
  | succ m ih =>
    intro i h
    have h0 : s i = false := by simpa using h 0 (Nat.succ_pos m)
    have hrest : loopAux f s (i + 1) true m = (true, (List.range' (i + 1) m).map f) := by
      apply ih
      intro j hj
      have := h (j + 1) (Nat.succ_lt_succ hj)
      simpa [Nat.add_assoc, Nat.add_comm 1 j] using this
    simp [loopAux, h0, hrest, List.range'_succ]

/-- If the first stop request is observed during tick `i + j` and at
least `j + 1` ticks remain, the loop records exactly the samples of ticks
`i, ..., i + j` and exits with the flag down. -/
theorem loopAux_stopAt (f : ℕ → Sample) (s : ℕ → Bool) :
    ∀ j n i, (∀ a, a < j → s (i + a) = false) → s (i + j) = true → j < n →
      loopAux f s i true n = (false, (List.range' i (j + 1)).map f) := by
  intro j
  induction j with
  | zero =>
    intro n i _ hstop hn
    obtain ⟨m, rfl⟩ := Nat.exists_eq_add_of_lt hn
    have h0 : s i = true := by simpa using hstop
    simp [loopAux, h0, loopAux_false, List.range'_succ, Nat.add_comm]
  | succ j ih =>
    intro n i hbefore hstop hn
    obtain ⟨m, rfl⟩ := Nat.exists_eq_add_of_lt hn
    have h0 : s i = false := by simpa using hbefore 0 (Nat.succ_pos j)
    have hrest : loopAux f s (i + 1) true (j + m + 1) =
        (false, (List.range' (i + 1) (j + 1)).map f) := by
      apply ih
      · intro a ha
        have := hbefore (a + 1) (Nat.succ_lt_succ ha)
        simpa [Nat.add_assoc, Nat.add_comm 1 a] using this
      · simpa [Nat.add_assoc, Nat.add_comm 1 j] using hstop
      · omega
    have harr : j + 1 + m + 1 = j + m + 1 + 1 := by omega
    rw [harr, loopAux_succ_true, h0]
    simp only [Bool.not_false]
    rw [hrest]
    simp [List.range'_succ]

/-- Whatever the stop schedule, the recorded samples are those of an
initial segment of the tick indices. -/
theorem loopAux_prefix (f : ℕ → Sample) (s : ℕ → Bool) :
    ∀ n i r, ∃ m, m ≤ n ∧ (loopAux f s i r n).2 = (List.range' i m).map f := by
  intro n
  induction n with
  | zero => intro i r; exact ⟨0, le_refl 0, rfl⟩
  | succ n ih =>
    intro i r
    cases r with
    | false => exact ⟨0, Nat.zero_le _, by simp [loopAux]⟩
    | true =>
      obtain ⟨m, hm, hs⟩ := ih (i + 1) (!s i)
      exact ⟨m + 1, Nat.succ_le_succ hm, by simp [loopAux, hs, List.range'_succ]⟩

/-- The number of recorded samples equals the number of executed ticks. -/
theorem loopAux_length (f : ℕ → Sample) (s : ℕ → Bool) :
    ∀ n i, (loopAux f s i true n).2.length = ticksRun s i n := by
  intro n
  induction n with
  | zero => intro i; rfl
  | succ n ih =>
    intro i
    cases hsi : s i with
    | false => simp [loopAux, ticksRun, hsi, ih, Nat.add_comm]
    | true => simp [loopAux, ticksRun, hsi, loopAux_false]

/-- On a parse failure `simulate` reports the message and returns with
only the `running` flag touched. -/
theorem simulate_parse_fail (st : EngineState) (raw : RawInputs) (s : ℕ → Bool)
    (h : parseParams raw = none) :
    simulate st raw s =
      { st with running := true, label_result := some ResultMsg.invalidMsg } := by
  simp [simulate, h]

/-- On an overdamped or critically damped parameter set `simulate`
reports the rejection and returns before the time loop. -/
theorem simulate_overdamped (st : EngineState) (raw : RawInputs) (s : ℕ → Bool)
    (p : Params) (hp : parseParams raw = some p) (hod : y p ≥ omega0 p) :
    simulate st raw s =
      { st with running := true, label_result := some ResultMsg.overdampedMsg } := by
  simp [simulate, hp, simulateParams, if_pos hod]

/-- On an underdamped parameter set `simulate` runs the loop and
publishes its results. -/
theorem simulate_run (st : EngineState) (raw : RawInputs) (s : ℕ → Bool)
    (p : Params) (hp : parseParams raw = some p) (hud : y p < omega0 p) :
    simulate st raw s =
      { st with
        running := (loopAux (tickSample p) s 0 true (frames p)).1,
        label_result :=
          some (ResultMsg.descriptorMsg (omega0 p) (y p) (omega_d p) (period p)),
        data_dict := some (toTimeSeries (loopAux (tickSample p) s 0 true (frames p)).2),
        label_energy :=
          some (npMean (toTimeSeries
            (loopAux (tickSample p) s 0 true (frames p)).2).total_energy) } := by
  simp [simulate, hp, simulateParams, if_neg (not_le.mpr hud)]

/-- `raw1` parses to `p1`. -/
theorem parse_raw1 : parseParams raw1 = some p1 := rfl

/-- `raw0` parses to `p0`. -/
theorem parse_raw0 : parseParams raw0 = some p0 := rfl

/-- `rawB` parses to `pB`. -/
theorem parse_rawB : parseParams rawB = some pB := rfl

/-- `raw2` parses to `p2`. -/
theorem parse_raw2 : parseParams raw2 = some p2 := rfl

/-- `p1` is underdamped: `γ = 0 < 1 = ω₀`. -/
theorem p1_underdamped : y p1 < omega0 p1 := by
  simp only [y, omega0, p1]
  norm_num [Real.sqrt_one]

/-- `p0` is underdamped: `γ = 0 < 1 = ω₀`. -/
theorem p0_underdamped : y p0 < omega0 p0 := by
  simp only [y, omega0, p0]
  norm_num [Real.sqrt_one]

/-- `p2` is underdamped: `γ = 0 < 1 = ω₀`. -/
theorem p2_underdamped : y p2 < omega0 p2 := by
  simp only [y, omega0, p2]
  norm_num [Real.sqrt_one]

/-- `pB` is overdamped: `γ = 5 ≥ 1 = ω₀` (scenario B). -/
theorem pB_overdamped : y pB ≥ omega0 pB := by
  simp only [y, omega0, pB]
  norm_num [Real.sqrt_one]

/-- `p1` runs for one frame: `frames = ⌊(1/60)·60⌋ = 1`. -/
theorem frames_p1 : frames p1 = 1 := by
  simp only [frames, p1, fps]
  norm_num

/-- `p0` runs for zero frames: `frames = ⌊0·60⌋ = 0`. -/
theorem frames_p0 : frames p0 = 0 := by
  simp only [frames, p0, fps]
  norm_num

/-- `p2` runs for two frames: `frames = ⌊(1/30)·60⌋ = 2`. -/
theorem frames_p2 : frames p2 = 2 := by
  simp only [frames, p2, fps]
  norm_num
  rfl

/-- C1, counterexample.  On the zero-frame run `m=1, k=1, x0=1, tmax=0,
b=0` the code publishes an empty TimeSeries, but then unconditionally
computes `np.mean` of the empty total-energy column (line 148) — which is
NaN, modelled as `none` — and writes it to the user-facing energy label
(line 149).  This refutes the claim that no NaN is computed from the
empty series and propagated to the output. -/
theorem C1_counterexample :
    frames p0 = 0 ∧
    (simulate st0 raw0 noStop).data_dict = some (toTimeSeries []) ∧
    npMean [] = none ∧
    (simulate st0 raw0 noStop).label_energy = some (npMean []) := by
  have hrun := simulate_run st0 raw0 noStop p0 parse_raw0 p0_underdamped
  rw [frames_p0] at hrun
  refine ⟨frames_p0, ?_, by simp [npMean], ?_⟩
  · rw [hrun]
    simp [loopAux]
  · rw [hrun]
    simp [loopAux, toTimeSeries]

/-- C1, amended.  A run with `frames = 0` publishes a TimeSeries with
zero rows, and the summary statistic is nevertheless computed: the code
takes `np.mean` of the empty series, obtaining NaN (`none`), and writes
it to the user-facing energy label. -/
theorem C1_theorem (st : EngineState) (raw : RawInputs) (s : ℕ → Bool) (p : Params)
    (hp : parseParams raw = some p) (hud : y p < omega0 p) (hf : frames p = 0) :
    (simulate st raw s).data_dict = some (toTimeSeries []) ∧
    (simulate st raw s).label_energy = some none := by
  have hrun := simulate_run st raw s p hp hud
  rw [hf] at hrun
  rw [hrun]
  exact ⟨by simp [loopAux], by simp [loopAux, toTimeSeries, npMean]⟩

/-- C1, witness for the amended theorem, at `m=1, k=1, x0=1, tmax=0, b=0`. -/
theorem C1_witness :
    (simulate st0 raw0 noStop).data_dict = some (toTimeSeries []) ∧
    (simulate st0 raw0 noStop).label_energy = some none :=
  C1_theorem st0 raw0 noStop p0 parse_raw0 p0_underdamped frames_p0

/-- C2, counterexample.  The run `m=1, k=1, x0=1, tmax=1/60, b=0`
completes its single frame with no stop request ever observed, yet the
`running` flag is still `true` afterwards: natural completion of the loop
never clears the flag (only `stop_simulation` does, lines 151-153), which
refutes the claim that `running` is false after a completed run. -/
theorem C2_counterexample :
    (∀ i, noStop i = false) ∧ frames p1 = 1 ∧
    (simulate st0 raw1 noStop).data_dict = some (toTimeSeries [tickSample p1 0]) ∧
    (simulate st0 raw1 noStop).running = true := by
  have hloop : loopAux (tickSample p1) noStop 0 true (frames p1) =
      (true, [tickSample p1 0]) := by
    rw [frames_p1, loopAux_noStop (tickSample p1) noStop 1 0 (fun j _ => rfl)]
    simp [List.range'_one]
  have hrun := simulate_run st0 raw1 noStop p1 parse_raw1 p1_underdamped
  rw [hloop] at hrun
  rw [hrun]
  exact ⟨fun i => rfl, frames_p1, rfl, rfl⟩

/-- C2, amended.  The `running` flag is set true at run start and checked
at every tick; it is set false by an external stop request
(`stop_simulation`), but natural completion does not clear it: after a
run completes all `frames` ticks without a stop request, `running` is
still true. -/
theorem C2_theorem (st : EngineState) (raw : RawInputs) (s : ℕ → Bool) (p : Params)
    (hp : parseParams raw = some p) (hud : y p < omega0 p) (hns : ∀ j, j < frames p → s j = false) :
    (simulate st raw s).running = true ∧
    ∀ st' : EngineState, (stop_simulation st').running = false := by
  have hloop := loopAux_noStop (tickSample p) s (frames p) 0 (by simpa using hns)
  have hrun := simulate_run st raw s p hp hud
  rw [hloop] at hrun
  rw [hrun]
  exact ⟨rfl, fun st' => rfl⟩

/-- C2, witness for the amended theorem, at `m=1, k=1, x0=1, tmax=1/60,
b=0` with no stop request. -/
theorem C2_witness :
    (simulate st0 raw1 noStop).running = true ∧
    ∀ st' : EngineState, (stop_simulation st').running = false :=
  C2_theorem st0 raw1 noStop p1 parse_raw1 p1_underdamped (fun _ _ => rfl)

/-- C3, counterexample.  Before the run request the flag is `false`
(module initialisation, line 8), but `simulate` sets `running = True`
(line 32) before attempting to parse, so after a parse failure the
run-state flag has changed — refuting the claim that it is unchanged from
its value before the run request. -/
theorem C3_counterexample :
    st0.running = false ∧ (simulate st0 rawBad noStop).running = true := by
  refine ⟨rfl, ?_⟩
  rw [simulate_parse_fail st0 rawBad noStop rfl]

/-- C3, amended.  If any of the five raw inputs fails to parse, the run
aborts with the validation message, the loop is never entered, the
published dataset and the energy label are untouched — but the run-state
flag is not unchanged: it is set true at run start and left true. -/
theorem C3_theorem (st : EngineState) (raw : RawInputs) (s : ℕ → Bool)
    (h : parseParams raw = none) :
    (simulate st raw s).label_result = some ResultMsg.invalidMsg ∧
    (simulate st raw s).data_dict = st.data_dict ∧
    (simulate st raw s).label_energy = st.label_energy ∧
    (simulate st raw s).running = true := by
  rw [simulate_parse_fail st raw s h]
  exact ⟨rfl, rfl, rfl, rfl⟩

/-- C3, witness for the amended theorem, with a non-numeric mass field
(scenario D). -/
theorem C3_witness :
    (simulate st0 rawBad noStop).label_result = some ResultMsg.invalidMsg ∧
    (simulate st0 rawBad noStop).data_dict = st0.data_dict ∧
    (simulate st0 rawBad noStop).label_energy = st0.label_energy ∧
    (simulate st0 rawBad noStop).running = true :=
  C3_theorem st0 rawBad noStop rfl

/-- C4: whenever `γ = b/(2m) ≥ ω₀ = √(k/m)`, the run stops at the
classification gate with the overdamped/critical message — a signal
distinct from the parse-error message — the time loop is never entered,
and no samples are produced: the published dataset and the energy label
are untouched. -/
theorem C4_theorem (st : EngineState) (raw : RawInputs) (s : ℕ → Bool) (p : Params)
    (hp : parseParams raw = some p) (hod : y p ≥ omega0 p) :
    (simulate st raw s).label_result = some ResultMsg.overdampedMsg ∧
    ResultMsg.overdampedMsg ≠ ResultMsg.invalidMsg ∧
    (simulate st raw s).data_dict = st.data_dict ∧
    (simulate st raw s).label_energy = st.label_energy := by
  rw [simulate_overdamped st raw s p hp hod]
  refine ⟨rfl, ?_, rfl, rfl⟩
  intro hcontra
  exact ResultMsg.noConfusion hcontra

/-- C4, witness at scenario B: `m=1, k=1, x0=1, b=10` gives `γ = 5 ≥ 1 =
ω₀` and is rejected with zero samples. -/
theorem C4_witness :
    (simulate st0 rawB noStop).label_result = some ResultMsg.overdampedMsg ∧
    ResultMsg.overdampedMsg ≠ ResultMsg.invalidMsg ∧
    (simulate st0 rawB noStop).data_dict = st0.data_dict ∧
    (simulate st0 rawB noStop).label_energy = st0.label_energy :=
  C4_theorem st0 rawB noStop pB parse_rawB pB_overdamped

/-- C10: a run rejected before the time loop — by a parameter parse
failure or by the overdamped/critical classification — leaves the
published dataset `data_dict` exactly as it was, so the previous run's
TimeSeries (if any) is still what the plot and save consumers see. -/
theorem C10_theorem (st : EngineState) (raw : RawInputs) (s : ℕ → Bool)
    (h : parseParams raw = none ∨ ∃ p, parseParams raw = some p ∧ y p ≥ omega0 p) :
    (simulate st raw s).data_dict = st.data_dict := by
  rcases h with h | ⟨p, hp, hod⟩
  · rw [simulate_parse_fail st raw s h]
  · rw [simulate_overdamped st raw s p hp hod]

/-- C10, witness: a parse-failure run against a state holding a previous
run's dataset leaves that dataset in place. -/
theorem C10_witness :
    (simulate stPrev rawBad noStop).data_dict = stPrev.data_dict :=
  C10_theorem stPrev rawBad noStop (Or.inl rfl)

/-- The tick step is positive. -/
theorem dt_pos : 0 < dt := by norm_num [dt, fps]

/-- Reading entry `i` of a column built over the tick indices `0..m-1`
gives the projection of the sample of tick `i`. -/
theorem getD_map_range' (g : Sample → ℝ) (f : ℕ → Sample) (m i : ℕ) (hi : i < m) (d : ℝ) :
    (((List.range' 0 m).map f).map g).getD i d = g (f i) := by
  have hlen : i < (((List.range' 0 m).map f).map g).length := by
    simp [List.length_map, List.length_range', hi]
  rw [List.getD_eq_getElem _ _ hlen]
  simp [List.getElem_map, List.getElem_range']

/-- The time field of the sample of tick `i` is `i*dt` (line 80). -/
theorem tickSample_t (p : Params) (i : ℕ) : (tickSample p i).t = (i : ℝ) * dt := rfl

/-- The recorded displacement of tick `i` is the spec's `x(t)` at `t = i*dt`. -/
theorem tickSample_x (p : Params) (i : ℕ) :
    (tickSample p i).x = specX p.x0 (y p) (omega_d p) ((i : ℝ) * dt) := by
  simp [tickSample, sampleAt, specX, neg_mul]

/-- The recorded velocity of tick `i` is the spec's `v(t)` at `t = i*dt`. -/
theorem tickSample_v (p : Params) (i : ℕ) :
    (tickSample p i).v = specV p.x0 (y p) (omega_d p) ((i : ℝ) * dt) := by
  simp [tickSample, sampleAt, specV, neg_mul]

/-- The recorded acceleration of tick `i` is the spec's `a(t)` formed
from the recorded `v` and `x`. -/
theorem tickSample_a (p : Params) (i : ℕ) :
    (tickSample p i).a = specA (y p) (omega0 p) (tickSample p i).v (tickSample p i).x := rfl

/-- The recorded kinetic energy of tick `i` is `0.5·m·v²`. -/
theorem tickSample_ke (p : Params) (i : ℕ) :
    (tickSample p i).ke = 0.5 * p.m * (tickSample p i).v ^ 2 := rfl

/-- The recorded potential energy of tick `i` is `0.5·k·x²`. -/
theorem tickSample_pe (p : Params) (i : ℕ) :
    (tickSample p i).pe = 0.5 * p.k * (tickSample p i).x ^ 2 := rfl

/-- The recorded total energy of tick `i` is `ke + pe`. -/
theorem tickSample_te (p : Params) (i : ℕ) :
    (tickSample p i).te = (tickSample p i).ke + (tickSample p i).pe := rfl

/-- The spec's displacement at `t = 0` is `x0`. -/
theorem specX_zero (x0 g wd : ℝ) : specX x0 g wd 0 = x0 := by
  simp [specX]

/-- The spec's velocity at `t = 0` is `-x0·γ`. -/
theorem specV_zero (x0 g wd : ℝ) : specV x0 g wd 0 = -x0 * g := by
  simp [specV]

/-- An underdamped run publishes the samples of an initial segment of
the tick indices. -/
theorem simulate_shape (st : EngineState) (raw : RawInputs) (s : ℕ → Bool) (p : Params)
    (hp : parseParams raw = some p) (hud : y p < omega0 p) :
    ∃ m, m ≤ frames p ∧
      (simulate st raw s).data_dict =
        some (toTimeSeries ((List.range' 0 m).map (tickSample p))) := by
  obtain ⟨m, hm, hL⟩ := loopAux_prefix (tickSample p) s (frames p) 0 true
  refine ⟨m, hm, ?_⟩
  rw [simulate_run st raw s p hp hud]
  simp [hL]

/-- The time column of a published initial segment reads `i*dt` at
index `i`. -/
theorem shape_times_getD (p : Params) (m i : ℕ) (hi : i < m) :
    (toTimeSeries ((List.range' 0 m).map (tickSample p))).times.getD i 0 = (i : ℝ) * dt := by
  simp only [toTimeSeries]
  rw [getD_map_range' Sample.t (tickSample p) m i hi 0]
  exact tickSample_t p i

/-- Entry `i` of the saved rows is the `i`-th value of each of the seven
columns, in header order. -/
theorem saveRows_getD (ts : TimeSeries) (i : ℕ) (hi : i < ts.times.length) :
    (saveRows ts).getD i [] =
      [ts.times.getD i 0, ts.positions.getD i 0, ts.velocities.getD i 0,
       ts.accelerations.getD i 0, ts.kinetic_energy.getD i 0,
       ts.potential_energy.getD i 0, ts.total_energy.getD i 0] := by
  have hlen : i < (saveRows ts).length := by
    simp [saveRows, List.length_map, List.length_range, hi]
  rw [List.getD_eq_getElem _ _ hlen]
  simp [saveRows, List.getElem_map, List.getElem_range, csvHeader, column]

/-- The one-frame run on `raw1` publishes exactly the tick-0 sample. -/
theorem run1_data :
    (simulate st0 raw1 noStop).data_dict = some (toTimeSeries [tickSample p1 0]) := by
  have hloop : loopAux (tickSample p1) noStop 0 true (frames p1) =
      (true, [tickSample p1 0]) := by
    rw [frames_p1, loopAux_noStop (tickSample p1) noStop 1 0 (fun _ _ => rfl)]
    simp [List.range'_one]
  rw [simulate_run st0 raw1 noStop p1 parse_raw1 p1_underdamped]
  simp [hloop]

/-- The two-frame run on `raw2`, stopped during tick 0, publishes
exactly the tick-0 sample. -/
theorem run2_data :
    (simulate st0 raw2 stopAt0).data_dict = some (toTimeSeries [tickSample p2 0]) := by
  have hloop : loopAux (tickSample p2) stopAt0 0 true (frames p2) =
      (false, [tickSample p2 0]) := by
    rw [frames_p2,
      loopAux_stopAt (tickSample p2) stopAt0 0 2 0
        (fun a ha => absurd ha (Nat.not_lt_zero a)) rfl Nat.zero_lt_two]
    simp [List.range'_one]
  rw [simulate_run st0 raw2 stopAt0 p2 parse_raw2 p2_underdamped]
  simp [hloop]

/-- C5: on every valid underdamped run, every published sample satisfies
the closed-form formulas at its tick time `t = i*dt` — `x(t)`, `v(t)`,
`a(t) = -2γ·v - ω0²·x`, `ke = 0.5·m·v²`, `pe = 0.5·k·x²`, `te = ke+pe` —
and in particular the first sample has `x(0) = x0` and `v(0) = -x0·γ`,
with no special-cased initial condition. -/
theorem C5_theorem (st : EngineState) (raw : RawInputs) (s : ℕ → Bool) (p : Params)
    (hp : parseParams raw = some p) (hud : y p < omega0 p) :
    ∀ ts, (simulate st raw s).data_dict = some ts →
      (∀ i, i < ts.times.length →
        ts.times.getD i 0 = (i : ℝ) * dt ∧
        ts.positions.getD i 0 = specX p.x0 (y p) (omega_d p) ((i : ℝ) * dt) ∧
        ts.velocities.getD i 0 = specV p.x0 (y p) (omega_d p) ((i : ℝ) * dt) ∧
        ts.accelerations.getD i 0 =
          specA (y p) (omega0 p) (ts.velocities.getD i 0) (ts.positions.getD i 0) ∧
        ts.kinetic_energy.getD i 0 = 0.5 * p.m * ts.velocities.getD i 0 ^ 2 ∧
        ts.potential_energy.getD i 0 = 0.5 * p.k * ts.positions.getD i 0 ^ 2 ∧
        ts.total_energy.getD i 0 =
          ts.kinetic_energy.getD i 0 + ts.potential_energy.getD i 0) ∧
      (0 < ts.times.length →
        ts.positions.getD 0 0 = p.x0 ∧ ts.velocities.getD 0 0 = -p.x0 * y p) := by
  obtain ⟨m, hm, hdd⟩ := simulate_shape st raw s p hp hud
  intro ts hts
  rw [hdd] at hts
  obtain rfl := Option.some.inj hts
  constructor
  · intro i hi
    have hi' : i < m := by
      simpa [toTimeSeries, List.length_map, List.length_range'] using hi
    simp only [toTimeSeries]
    rw [getD_map_range' Sample.t (tickSample p) m i hi' 0,
      getD_map_range' Sample.x (tickSample p) m i hi' 0,
      getD_map_range' Sample.v (tickSample p) m i hi' 0,
      getD_map_range' Sample.a (tickSample p) m i hi' 0,
      getD_map_range' Sample.ke (tickSample p) m i hi' 0,
      getD_map_range' Sample.pe (tickSample p) m i hi' 0,
      getD_map_range' Sample.te (tickSample p) m i hi' 0]
    exact ⟨tickSample_t p i, tickSample_x p i, tickSample_v p i, tickSample_a p i,
      tickSample_ke p i, tickSample_pe p i, tickSample_te p i⟩
  · intro hpos
    have h0 : 0 < m := by
      simpa [toTimeSeries, List.length_map, List.length_range'] using hpos
    simp only [toTimeSeries]
    rw [getD_map_range' Sample.x (tickSample p) m 0 h0 0,
      getD_map_range' Sample.v (tickSample p) m 0 h0 0,
      tickSample_x, tickSample_v]
    norm_num [specX_zero, specV_zero]

/-- C5, witness at `m=1, k=1, x0=1, tmax=1/60, b=0`: the one published
sample has `x(0) = x0` and `v(0) = -x0·γ`. -/
theorem C5_witness :
    (toTimeSeries [tickSample p1 0]).positions.getD 0 0 = p1.x0 ∧
    (toTimeSeries [tickSample p1 0]).velocities.getD 0 0 = -p1.x0 * y p1 :=
  (C5_theorem st0 raw1 noStop p1 parse_raw1 p1_underdamped
    (toTimeSeries [tickSample p1 0]) run1_data).2 (by simp [toTimeSeries])

/-- C6: every successful run publishes a TimeSeries whose time column is
strictly increasing with constant step `dt = 1/fps` (`fps = 60`), whose
sample at index `i` has `t = i*dt`, whose length never exceeds
`frames = ⌊tmax·fps⌋`, and whose length equals `frames` when no stop
request interrupts the run. -/
theorem C6_theorem (st : EngineState) (raw : RawInputs) (s : ℕ → Bool) (p : Params)
    (hp : parseParams raw = some p) (hud : y p < omega0 p) :
    fps = 60 ∧ dt = 1 / 60 ∧
    ∀ ts, (simulate st raw s).data_dict = some ts →
      ts.times.length ≤ frames p ∧
      (∀ i, i < ts.times.length → ts.times.getD i 0 = (i : ℝ) * dt) ∧
      (∀ i j, i < j → j < ts.times.length → ts.times.getD i 0 < ts.times.getD j 0) ∧
      ((∀ j, j < frames p → s j = false) → ts.times.length = frames p) := by
  refine ⟨rfl, by norm_num [dt, fps], ?_⟩
  obtain ⟨m, hm, hdd⟩ := simulate_shape st raw s p hp hud
  intro ts hts
  rw [hdd] at hts
  obtain rfl := Option.some.inj hts
  have hlen : (toTimeSeries ((List.range' 0 m).map (tickSample p))).times.length = m := by
    simp [toTimeSeries, List.length_map, List.length_range']
  refine ⟨by rw [hlen]; exact hm, ?_, ?_, ?_⟩
  · intro i hi
    exact shape_times_getD p m i (hlen ▸ hi)
  · intro i j hij hj
    have hj' : j < m := hlen ▸ hj
    rw [shape_times_getD p m i (lt_trans hij hj'), shape_times_getD p m j hj']
    exact mul_lt_mul_of_pos_right (by exact_mod_cast hij) dt_pos
  · intro hns
    have h2 := simulate_run st raw s p hp hud
    rw [loopAux_noStop (tickSample p) s (frames p) 0 (by simpa using hns)] at h2
    rw [h2] at hdd
    have h3 := Option.some.inj hdd
    have h4 := congrArg (fun t : TimeSeries => t.times.length) h3
    simpa [toTimeSeries, List.length_map, List.length_range'] using h4.symm

/-- C6, witness at the completed one-frame run on `raw1`. -/
theorem C6_witness :
    (toTimeSeries [tickSample p1 0]).times.length ≤ frames p1 ∧
    (∀ i, i < (toTimeSeries [tickSample p1 0]).times.length →
      (toTimeSeries [tickSample p1 0]).times.getD i 0 = (i : ℝ) * dt) ∧
    (∀ i j, i < j → j < (toTimeSeries [tickSample p1 0]).times.length →
      (toTimeSeries [tickSample p1 0]).times.getD i 0 <
        (toTimeSeries [tickSample p1 0]).times.getD j 0) ∧
    ((∀ j, j < frames p1 → noStop j = false) →
      (toTimeSeries [tickSample p1 0]).times.length = frames p1) :=
  (C6_theorem st0 raw1 noStop p1 parse_raw1 p1_underdamped).2.2
    (toTimeSeries [tickSample p1 0]) run1_data

/-- C7: if the first stop request is observed while tick `j` is in
flight (`j` within the planned frames), the in-flight tick's sample is
still appended — the published TimeSeries has length exactly `j+1` and
its last entry is tick `j`'s — and the run ends stopped, with the
`running` flag cleared. -/
theorem C7_theorem (st : EngineState) (raw : RawInputs) (s : ℕ → Bool) (p : Params)
    (j : ℕ) (hp : parseParams raw = some p) (hud : y p < omega0 p)
    (hbefore : ∀ a, a < j → s a = false) (hstop : s j = true) (hj : j < frames p) :
    (simulate st raw s).running = false ∧
    ∀ ts, (simulate st raw s).data_dict = some ts →
      ts.times.length = j + 1 ∧ ts.times.getD j 0 = (j : ℝ) * dt := by
  have hL := loopAux_stopAt (tickSample p) s j (frames p) 0
    (by simpa using hbefore) (by simpa using hstop) hj
  have hrun := simulate_run st raw s p hp hud
  rw [hL] at hrun
  rw [hrun]
  refine ⟨rfl, ?_⟩
  intro ts hts
  obtain rfl := Option.some.inj hts
  constructor
  · simp [toTimeSeries, List.length_map, List.length_range']
  · exact shape_times_getD p (j + 1) j (Nat.lt_succ_self j)

/-- C7, witness: the two-frame run on `raw2` with a stop request during
tick 0 publishes exactly one sample and ends with the flag down. -/
theorem C7_witness :
    (simulate st0 raw2 stopAt0).running = false ∧
    (toTimeSeries [tickSample p2 0]).times.length = 0 + 1 ∧
    (toTimeSeries [tickSample p2 0]).times.getD 0 0 = ((0 : ℕ) : ℝ) * dt := by
  have h := C7_theorem st0 raw2 stopAt0 p2 0 parse_raw2 p2_underdamped
    (fun a ha => absurd ha (Nat.not_lt_zero a)) rfl
    (by rw [frames_p2]; exact Nat.zero_lt_two)
  exact ⟨h.1, h.2 (toTimeSeries [tickSample p2 0]) run2_data⟩

/-- C8: the exported table of a run's published TimeSeries has exactly
the seven ordered header names, one data row per collected sample (in
increasing-`t` order, as witnessed by the strictly increasing first
entry), each row listing the seven columns' values at that index. -/
theorem C8_theorem (st : EngineState) (raw : RawInputs) (s : ℕ → Bool) (p : Params)
    (hp : parseParams raw = some p) (hud : y p < omega0 p) :
    ∀ ts, (simulate st raw s).data_dict = some ts →
      (save_data ts).1 =
        ["Time (s)", "Position (m)", "Velocity (m/s)", "Acceleration (m/s²)",
         "Kinetic Energy (J)", "Potential Energy (J)", "Total Energy (J)"] ∧
      (save_data ts).2.length = ts.times.length ∧
      (∀ i, i < ts.times.length → (save_data ts).2.getD i [] =
        [ts.times.getD i 0, ts.positions.getD i 0, ts.velocities.getD i 0,
         ts.accelerations.getD i 0, ts.kinetic_energy.getD i 0,
         ts.potential_energy.getD i 0, ts.total_energy.getD i 0]) ∧
      (∀ i j, i < j → j < ts.times.length →
        ((save_data ts).2.getD i []).getD 0 0 < ((save_data ts).2.getD j []).getD 0 0) := by
  obtain ⟨m, hm, hdd⟩ := simulate_shape st raw s p hp hud
  intro ts hts
  rw [hdd] at hts
  obtain rfl := Option.some.inj hts
  have hlen : (toTimeSeries ((List.range' 0 m).map (tickSample p))).times.length = m := by
    simp [toTimeSeries, List.length_map, List.length_range']
  refine ⟨rfl, ?_, ?_, ?_⟩
  · simp [save_data, saveRows, List.length_map, List.length_range]
  · intro i hi
    exact saveRows_getD _ i hi
  · intro i j hij hj
    have hj' : j < m := hlen ▸ hj
    have hi' : i < m := lt_trans hij hj'
    simp only [save_data]
    rw [saveRows_getD _ i (by rw [hlen]; exact hi'), saveRows_getD _ j (by rw [hlen]; exact hj')]
    simp only [List.getD_cons_zero]
    rw [shape_times_getD p m i hi', shape_times_getD p m j hj']
    exact mul_lt_mul_of_pos_right (by exact_mod_cast hij) dt_pos

/-- C8, witness at the completed one-frame run on `raw1`. -/
theorem C8_witness :
    (save_data (toTimeSeries [tickSample p1 0])).1 =
      ["Time (s)", "Position (m)", "Velocity (m/s)", "Acceleration (m/s²)",
       "Kinetic Energy (J)", "Potential Energy (J)", "Total Energy (J)"] ∧
    (save_data (toTimeSeries [tickSample p1 0])).2.length =
      (toTimeSeries [tickSample p1 0]).times.length ∧
    (∀ i, i < (toTimeSeries [tickSample p1 0]).times.length →
      (save_data (toTimeSeries [tickSample p1 0])).2.getD i [] =
        [(toTimeSeries [tickSample p1 0]).times.getD i 0,
         (toTimeSeries [tickSample p1 0]).positions.getD i 0,
         (toTimeSeries [tickSample p1 0]).velocities.getD i 0,
         (toTimeSeries [tickSample p1 0]).accelerations.getD i 0,
         (toTimeSeries [tickSample p1 0]).kinetic_energy.getD i 0,
         (toTimeSeries [tickSample p1 0]).potential_energy.getD i 0,
         (toTimeSeries [tickSample p1 0]).total_energy.getD i 0]) ∧
    (∀ i j, i < j → j < (toTimeSeries [tickSample p1 0]).times.length →
      ((save_data (toTimeSeries [tickSample p1 0])).2.getD i []).getD 0 0 <
        ((save_data (toTimeSeries [tickSample p1 0])).2.getD j []).getD 0 0) :=
  C8_theorem st0 raw1 noStop p1 parse_raw1 p1_underdamped
    (toTimeSeries [tickSample p1 0]) run1_data

/-- C9: after every run that reaches the time loop, the seven published
columns all have the same length, equal to the number of executed
ticks. -/
theorem C9_theorem (st : EngineState) (raw : RawInputs) (s : ℕ → Bool) (p : Params)
    (hp : parseParams raw = some p) (hud : y p < omega0 p) :
    ∀ ts, (simulate st raw s).data_dict = some ts →
      ts.times.length = ticksRun s 0 (frames p) ∧
      ts.positions.length = ticksRun s 0 (frames p) ∧
      ts.velocities.length = ticksRun s 0 (frames p) ∧
      ts.accelerations.length = ticksRun s 0 (frames p) ∧
      ts.kinetic_energy.length = ticksRun s 0 (frames p) ∧
      ts.potential_energy.length = ticksRun s 0 (frames p) ∧
      ts.total_energy.length = ticksRun s 0 (frames p) := by
  have hrun := simulate_run st raw s p hp hud
  intro ts hts
  rw [hrun] at hts
  obtain rfl := Option.some.inj hts
  have hL := loopAux_length (tickSample p) s (frames p) 0
  exact ⟨by simpa [toTimeSeries, List.length_map] using hL,
    by simpa [toTimeSeries, List.length_map] using hL,
    by simpa [toTimeSeries, List.length_map] using hL,
    by simpa [toTimeSeries, List.length_map] using hL,
    by simpa [toTimeSeries, List.length_map] using hL,
    by simpa [toTimeSeries, List.length_map] using hL,
    by simpa [toTimeSeries, List.length_map] using hL⟩

/-- C9, witness at the completed one-frame run on `raw1`. -/
theorem C9_witness :
    (toTimeSeries [tickSample p1 0]).times.length = ticksRun noStop 0 (frames p1) ∧
    (toTimeSeries [tickSample p1 0]).positions.length = ticksRun noStop 0 (frames p1) ∧
    (toTimeSeries [tickSample p1 0]).velocities.length = ticksRun noStop 0 (frames p1) ∧
    (toTimeSeries [tickSample p1 0]).accelerations.length = ticksRun noStop 0 (frames p1) ∧
    (toTimeSeries [tickSample p1 0]).kinetic_energy.length = ticksRun noStop 0 (frames p1) ∧
    (toTimeSeries [tickSample p1 0]).potential_energy.length = ticksRun noStop 0 (frames p1) ∧
    (toTimeSeries [tickSample p1 0]).total_energy.length = ticksRun noStop 0 (frames p1) :=
  C9_theorem st0 raw1 noStop p1 parse_raw1 p1_underdamped
    (toTimeSeries [tickSample p1 0]) run1_data

end DHO
